import Mathlib

/-!
Shallow embedding of the CPR session controller and event/timeline log of
S.T.A.R.T-Rescue (src/cpr.js).

Modelling conventions:
* The module-level mutable variables of src/cpr.js become the fields of
  `CprState`; each exported function becomes a state-passing `def`.
* Timestamps are abstracted to naturals: every operation that reads the
  clock (`Date.now()`, `nowTimestamp()`, `toISOString()`) takes a `now`
  parameter and stores it in the `time`/`iso` fields.
* `setInterval` handles: `metronomeInterval` holds the period (in ms, as a
  rational, since JS division is exact) of the interval timer currently
  referenced by the variable, or `none` when the variable is null.
  Overwriting the variable while it references a live timer leaves that
  timer running but unreachable; the counter `metronomeOrphans` counts such
  orphaned interval timers (likewise `cprTimerOrphans` for the elapsed-time
  timer, whose handle is the boolean `cprTimerInterval`).
* The pulse-check modal display style becomes the boolean `pulseCheckModal`.
* `localStorage` becomes the `storage` field written by
  `saveToLocalStorage`; a key that was never written is `none`.
* DOM text updates, beeps and list rendering have no effect on the model
  state and are dropped; input fields read by `getValue`/`prompt` become
  explicit parameters of the operation that reads them.
-/

namespace Cpr

/-- An entry of `cprEvents` or `cprTimeline`: the object literals unshifted
in src/cpr.js, with `time`/`iso` abstracted to naturals. -/
structure Entry where
  time : Nat
  iso : Nat
  type : String
  details : String
deriving DecidableEq

/-- A completed CPR session record as unshifted into `cprLog` by
`pulseDetected` (src/cpr.js lines 252-259). -/
structure Session where
  time : Nat
  iso : Nat
  duration : String
  rate : Nat
  cycles : Nat
  rhythm : String
deriving DecidableEq

/-- The three localStorage keys written by `saveToLocalStorage`
(src/cpr.js lines 45-49); `none` when the key is absent. -/
structure Storage where
  cprLog : Option (List Session)
  cprEvents : Option (List Entry)
  cprTimeline : Option (List Entry)
deriving DecidableEq

/-- The module-level mutable state of src/cpr.js (lines 11-26), plus the
timer-handle accounting and the modal display style described above. -/
structure CprState where
  cprLog : List Session
  cprEvents : List Entry
  cprTimeline : List Entry
  currentRhythm : String
  metronomeInterval : Option ℚ
  metronomeOrphans : Nat
  metronomeRate : Nat
  compressionCount : Nat
  cycleCount : Nat
  cprStartTime : Option Nat
  cprTimerInterval : Bool
  cprTimerOrphans : Nat
  pulseCheckModal : Bool
  storage : Storage
deriving DecidableEq

/-- `let cycleTarget = 120` (src/cpr.js line 21); never reassigned. -/
def cycleTarget : Nat := 120

/-- The initial module state: empty logs, rate 100, rhythm unknown, no
timers, modal hidden, nothing persisted yet. -/
def initState : CprState where
  cprLog := []
  cprEvents := []
  cprTimeline := []
  currentRhythm := "unknown"
  metronomeInterval := none
  metronomeOrphans := 0
  metronomeRate := 100
  compressionCount := 0
  cycleCount := 0
  cprStartTime := none
  cprTimerInterval := false
  cprTimerOrphans := 0
  pulseCheckModal := false
  storage := ⟨none, none, none⟩

/-- `Math.ceil(a / b)` on natural inputs with b > 0 (used for the cycles
field and the cycle display). -/
def jsCeilDiv (a b : Nat) : Nat := (a + b - 1) / b

/-- `getRhythmName` (src/cpr.js lines 305-314). -/
def getRhythmName (value : String) : String :=
  if value = "unknown" then "Unknown"
  else if value = "vf" then "VF (Ventricular Fibrillation)"
  else if value = "vt" then "VT (Ventricular Tachycardia)"
  else if value = "asystole" then "Asystole"
  else if value = "pea" then "PEA (Pulseless Electrical Activity)"
  else value

/-- `String(n).padStart(2, "0")` for a natural number. -/
def padStart2 (n : Nat) : String :=
  let s := toString n
  if s.length < 2 then "0" ++ s else s

/-- `formatDuration` (src/cpr.js lines 221-225). -/
def formatDuration (ms : Nat) : String :=
  padStart2 (ms / 60000) ++ ":" ++ padStart2 (ms % 60000 / 1000)

/-- `saveToLocalStorage` (src/cpr.js lines 45-49): rewrites all three keys
from the in-memory logs. -/
def saveToLocalStorage (s : CprState) : CprState :=
  { s with storage := ⟨some s.cprLog, some s.cprEvents, some s.cprTimeline⟩ }

/-- `startCPRTimer` (src/cpr.js lines 207-216): assigns a fresh interval
handle to `cprTimerInterval` without clearing any previous one (a live
previous handle would be orphaned). The callback only updates the clock
display, so it has no model effect. -/
def startCPRTimer (s : CprState) : CprState :=
  { s with cprTimerInterval := true
           cprTimerOrphans := s.cprTimerOrphans + (if s.cprTimerInterval then 1 else 0) }

/-- `stopMetronome` (src/cpr.js lines 141-150): clears the referenced
interval timer, if any, and nulls the variable; the rest is DOM. -/
def stopMetronome (s : CprState) : CprState :=
  { s with metronomeInterval := none }

/-- `startMetronome` (src/cpr.js lines 110-136): on first start records the
session start (start time, elapsed timer, session-start timeline entry,
persist), then assigns a new interval of period `60000 / metronomeRate` to
the handle variable without clearing any previous one (a live previous
interval is orphaned). -/
def startMetronome (s : CprState) (now : Nat) : CprState :=
  let s1 :=
    if s.cprStartTime.isNone then
      let sa := { s with cprStartTime := some now }
      let sb := startCPRTimer sa
      let sc := { sb with cprTimeline :=
        { time := now, iso := now, type := "session-start", details := "CPR started" }
          :: sb.cprTimeline }
      saveToLocalStorage sc
    else s
  { s1 with metronomeInterval := some ((60000 : ℚ) / (s1.metronomeRate : ℚ))
            metronomeOrphans := s1.metronomeOrphans + (if s1.metronomeInterval.isSome then 1 else 0) }

/-- `updateMetronomeRate` (src/cpr.js lines 85-94): stores the parsed rate
and, when the metronome is running, stops and restarts it. -/
def updateMetronomeRate (s : CprState) (value : Nat) (now : Nat) : CprState :=
  let s1 := { s with metronomeRate := value }
  if s1.metronomeInterval.isSome then startMetronome (stopMetronome s1) now else s1

/-- `updateCompressionCount` (src/cpr.js lines 167-183): increments the
counter; on reaching `cycleTarget` stops the metronome and shows the
pulse-check modal. The cycle display values are the pure functions
`currentCycle`/`cycleProgress` below. -/
def updateCompressionCount (s : CprState) : CprState :=
  let s1 := { s with compressionCount := s.compressionCount + 1 }
  if cycleTarget ≤ s1.compressionCount then
    { stopMetronome s1 with pulseCheckModal := true }
  else s1

/-- One firing of the metronome interval callback (src/cpr.js lines
128-132): fires only while the referenced interval timer is live; beep and
beat flash are audio/DOM only. -/
def tick (s : CprState) : CprState :=
  if s.metronomeInterval.isSome then updateCompressionCount s else s

/-- `Math.ceil(compressionCount / cycleTarget)` (src/cpr.js line 180). -/
def currentCycle (c : Nat) : Nat := jsCeilDiv c cycleTarget

/-- `compressionCount % cycleTarget || cycleTarget` (src/cpr.js line 181):
the JS or-expression falls back to `cycleTarget` exactly when the modulus
is 0, which is falsy. -/
def cycleProgress (c : Nat) : Nat :=
  if c % cycleTarget = 0 then cycleTarget else c % cycleTarget

/-- `resetMetronome` (src/cpr.js lines 188-202): stops the metronome,
zeroes the counters, forgets the start time and clears the elapsed timer. -/
def resetMetronome (s : CprState) : CprState :=
  let s1 := stopMetronome s
  { s1 with compressionCount := 0
            cycleCount := 0
            cprStartTime := none
            cprTimerInterval := false }

/-- `closePulseCheckModal` (src/cpr.js lines 230-232). -/
def closePulseCheckModal (s : CprState) : CprState :=
  { s with pulseCheckModal := false }

/-- `pulseDetected` (src/cpr.js lines 237-275): always unshifts a
pulse-check timeline entry; when a session is active also logs the
completed session and a session-end entry; then fully resets and persists. -/
def pulseDetected (s : CprState) (now : Nat) : CprState :=
  let s1 := closePulseCheckModal s
  let s2 := { s1 with cprTimeline :=
    { time := now, iso := now, type := "pulse-check",
      details := "Pulse detected - CPR stopped" } :: s1.cprTimeline }
  let s3 :=
    match s2.cprStartTime with
    | some t0 =>
      let dur := formatDuration (now - t0)
      let sa := { s2 with cprLog :=
        { time := now, iso := now, duration := dur, rate := s2.metronomeRate,
          cycles := jsCeilDiv s2.compressionCount cycleTarget,
          rhythm := s2.currentRhythm } :: s2.cprLog }
      { sa with cprTimeline :=
        { time := now, iso := now, type := "session-end",
          details := "CPR stopped after " ++ dur ++ " - Pulse detected" }
          :: sa.cprTimeline }
    | none => s2
  saveToLocalStorage (resetMetronome s3)

/-- `noPulseDetected` (src/cpr.js lines 280-300): unshifts a pulse-check
timeline entry, resets the compression counter, increments the cycle
counter, restarts the metronome and persists. -/
def noPulseDetected (s : CprState) (now : Nat) : CprState :=
  let s1 := closePulseCheckModal s
  let s2 := { s1 with cprTimeline :=
    { time := now, iso := now, type := "pulse-check",
      details := "No pulse detected - CPR continued" } :: s1.cprTimeline }
  let s3 := { s2 with compressionCount := 0, cycleCount := s2.cycleCount + 1 }
  saveToLocalStorage (startMetronome s3 now)

/-- `logRhythmChange` (src/cpr.js lines 319-348); `rhythm` is the value of
the rhythm-select field, empty when nothing is selected. -/
def logRhythmChange (s : CprState) (now : Nat) (rhythm : String) : CprState :=
  if rhythm = "" then s
  else
    let s1 := { s with currentRhythm := rhythm }
    let s2 := { s1 with cprEvents :=
      { time := now, iso := now, type := "rhythm", details := rhythm } :: s1.cprEvents }
    let s3 := { s2 with cprTimeline :=
      { time := now, iso := now, type := "rhythm",
        details := "Rhythm: " ++ getRhythmName rhythm } :: s2.cprTimeline }
    saveToLocalStorage s3

/-- `logShock` (src/cpr.js lines 353-380); the shock-energy field value is
`none` for the empty string and `some e` for a string of numeric value `e`,
so the guard `!energy || energy <= 0` aborts exactly on `none` and on
non-positive `e`. -/
def logShock (s : CprState) (now : Nat) (energy : Option Int) : CprState :=
  match energy with
  | none => s
  | some e =>
    if e ≤ 0 then s
    else
      let s1 := { s with cprEvents :=
        { time := now, iso := now, type := "shock",
          details := toString e ++ "J" } :: s.cprEvents }
      let s2 := { s1 with cprTimeline :=
        { time := now, iso := now, type := "shock",
          details := "Shock delivered: " ++ toString e ++ "J" } :: s1.cprTimeline }
      saveToLocalStorage s2

/-- `logMedication` (src/cpr.js lines 404-450); the four form fields become
parameters, empty string for an empty field. -/
def logMedication (s : CprState) (now : Nat)
    (medication otherMed dose interval : String) : CprState :=
  if medication = "" then s
  else if medication = "other" ∧ otherMed = "" then s
  else
    let details :=
      if medication = "other" then otherMed
      else if medication = "epinephrine" then
        "Epinephrine " ++ dose ++ "mg every " ++ interval ++ " min"
      else medication
    let s1 := { s with cprEvents :=
      { time := now, iso := now, type := "medication", details := details } :: s.cprEvents }
    let s2 := { s1 with cprTimeline :=
      { time := now, iso := now, type := "medication",
        details := "Medication: " ++ details } :: s1.cprTimeline }
    saveToLocalStorage s2

/-- `logIntervention` (src/cpr.js lines 475-522); the three form fields
become parameters, empty string for an empty field. -/
def logIntervention (s : CprState) (now : Nat)
    (intervention otherInt notes : String) : CprState :=
  if intervention = "" then s
  else if intervention = "other-int" ∧ otherInt = "" then s
  else
    let base := if intervention = "other-int" then otherInt else intervention
    let details := if notes = "" then base else base ++ " - " ++ notes
    let s1 := { s with cprEvents :=
      { time := now, iso := now, type := "intervention", details := details } :: s.cprEvents }
    let s2 := { s1 with cprTimeline :=
      { time := now, iso := now, type := "intervention",
        details := "Intervention: " ++ details } :: s1.cprTimeline }
    saveToLocalStorage s2

/-- `toggleMetronome` (src/cpr.js lines 99-105). -/
def toggleMetronome (s : CprState) (now : Nat) : CprState :=
  if s.metronomeInterval.isSome then stopMetronome s else startMetronome s now

/-- `startCPR` wrapper (src/cpr.js line 621). -/
def startCPR (s : CprState) (now : Nat) : CprState := startMetronome s now

/-- `stopCPR` wrapper (src/cpr.js line 622): only stops the metronome. -/
def stopCPR (s : CprState) : CprState := stopMetronome s

/-- `addCprEvent` (src/cpr.js lines 623-632); `details` is the prompt
result, empty string covering both null and the empty reply, on which the
function returns without mutating anything. -/
def addCprEvent (s : CprState) (now : Nat) (details : String) : CprState :=
  if details = "" then s
  else
    let item : Entry := { time := now, iso := now, type := "note", details := details }
    let s1 := { s with cprEvents := item :: s.cprEvents }
    let s2 := { s1 with cprTimeline := item :: s1.cprTimeline }
    saveToLocalStorage s2

end Cpr

namespace Cpr

/-- A successful `addCprEvent` grows both logs by exactly one entry at the
head; no truncation of any kind occurs. -/
lemma addCprEvent_length (s : CprState) (now : Nat) (d : String) (hd : d ≠ "") :
    (addCprEvent s now d).cprEvents.length = s.cprEvents.length + 1 ∧
    (addCprEvent s now d).cprTimeline.length = s.cprTimeline.length + 1 := by
  simp [addCprEvent, saveToLocalStorage, hd]

/-- The state after `n` successful `addCprEvent` calls from the initial
state. -/
def addEventsRepeatedly (n : Nat) : CprState :=
  (fun s => addCprEvent s 0 "e")^[n] initState

/-- Both log lengths equal the number of successful appends: nothing is
ever dropped. -/
lemma addEventsRepeatedly_length (n : Nat) :
    (addEventsRepeatedly n).cprEvents.length = n ∧
    (addEventsRepeatedly n).cprTimeline.length = n := by
  induction n with
  | zero => simp [addEventsRepeatedly, initState]
  | succ n ih =>
    have h := addCprEvent_length (addEventsRepeatedly n) 0 "e" (by decide)
    unfold addEventsRepeatedly at ih h ⊢
    rw [Function.iterate_succ_apply']
    omega

/-- C1: the spec says `cprEvents` and `cprTimeline` are capped at 200
entries with tail truncation, but src/cpr.js never truncates either list
(unlike the sibling modules, which do `log.length = 200`): after 201
appends both logs have length 201, exceeding the documented cap. -/
theorem cap_violated_after_201_events :
    (addEventsRepeatedly 201).cprEvents.length = 201 ∧
    (addEventsRepeatedly 201).cprTimeline.length = 201 ∧
    200 < (addEventsRepeatedly 201).cprEvents.length ∧
    200 < (addEventsRepeatedly 201).cprTimeline.length := by
  have h := addEventsRepeatedly_length 201
  exact ⟨h.1, h.2, by omega, by omega⟩

/-- C2 counterexample: starting a session and immediately stopping it via
`stopCPR` leaves `cprLog` empty — not the one completed `CprSession` entry
the claim requires. -/
theorem stop_after_start_logs_nothing_cex :
    (stopCPR (startCPR initState 0)).cprLog.length = 0 ∧
    (stopCPR (startCPR initState 0)).cprLog.length ≠ 1 := by decide

/-- C2 amended: `stopCPR` only stops the metronome interval; it never
appends a `CprSession` record to `cprLog` and it leaves the session start
time in place. -/
theorem stopCPR_never_logs_session (s : CprState) :
    (stopCPR s).cprLog = s.cprLog ∧
    (stopCPR s).metronomeInterval = none ∧
    (stopCPR s).cprStartTime = s.cprStartTime := by
  exact ⟨rfl, rfl, rfl⟩

/-- The concrete run of the C3 scenario: start, 120 compression ticks, no
pulse detected, 60 more ticks, pulse detected. -/
def scenarioC3 : CprState :=
  pulseDetected (tick^[60] (noPulseDetected (tick^[cycleTarget]
    (startCPR initState 0)) 120000)) 180000

set_option maxRecDepth 8000 in
/-- C3 counterexample: in the scenario the single logged session has
`cycles = 1`, not 2, because `noPulseDetected` reset `compressionCount` to
0 and `pulseDetected` computes `cycles` from the post-reset count of 60. -/
theorem scenario_cycles_one_not_two_cex :
    scenarioC3.cprLog.map (fun x => x.cycles) = [1] ∧
    scenarioC3.cprLog.map (fun x => x.cycles) ≠ [2] := by decide

set_option maxRecDepth 8000 in
/-- C3 amended: the scenario produces exactly one `cprLog` entry, whose
`cycles` field equals 1, and the timeline holds, newest first, the
session-end, pulse-check (detected), pulse-check (not detected) and
session-start entries. -/
theorem scenario_log_and_timeline :
    scenarioC3.cprLog = [{ time := 180000, iso := 180000, duration := "03:00",
                           rate := 100, cycles := 1, rhythm := "unknown" }] ∧
    scenarioC3.cprTimeline.map (fun e => e.type) =
      ["session-end", "pulse-check", "pulse-check", "session-start"] ∧
    scenarioC3.cprTimeline.map (fun e => e.details) =
      ["CPR stopped after 03:00 - Pulse detected", "Pulse detected - CPR stopped",
       "No pulse detected - CPR continued", "CPR started"] := by decide

/-- C6: recording a shock with an empty or non-positive energy value is a
complete no-op: the guard aborts before any event, timeline entry or other
state change. -/
theorem logShock_invalid_noop (s : CprState) (now : Nat) (e : Int) (he : e ≤ 0) :
    logShock s now none = s ∧ logShock s now (some e) = s := by
  refine ⟨rfl, ?_⟩
  simp [logShock, he]

/-- C6 witness at the initial state with energy 0. -/
theorem logShock_invalid_noop_witness :
    logShock initState 0 none = initState ∧ logShock initState 0 (some 0) = initState :=
  logShock_invalid_noop initState 0 0 (by decide)

/-- C10: `pulseDetected` with no active session still unshifts one
pulse-check timeline entry and persists it, while `cprLog` is untouched and
no session-end entry is added — the timeline mutation precedes the
active-session guard. -/
theorem pulseDetected_idle_timeline (s : CprState) (now : Nat)
    (h : s.cprStartTime = none) :
    (pulseDetected s now).cprTimeline =
      { time := now, iso := now, type := "pulse-check",
                     details := "Pulse detected - CPR stopped" } :: s.cprTimeline ∧
    (pulseDetected s now).cprLog = s.cprLog ∧
    (pulseDetected s now).storage.cprTimeline =
      some ({ time := now, iso := now, type := "pulse-check",
                            details := "Pulse detected - CPR stopped" } :: s.cprTimeline) := by
  simp [pulseDetected, closePulseCheckModal, h, resetMetronome, stopMetronome,
    saveToLocalStorage]

/-- C10 witness at the initial state. -/
theorem pulseDetected_idle_timeline_witness :
    (pulseDetected initState 3).cprTimeline =
      [{ time := 3, iso := 3, type := "pulse-check",
                    details := "Pulse detected - CPR stopped" }] ∧
    (pulseDetected initState 3).cprLog = [] ∧
    (pulseDetected initState 3).storage.cprTimeline =
      some [{ time := 3, iso := 3, type := "pulse-check",
                          details := "Pulse detected - CPR stopped" }] :=
  pulseDetected_idle_timeline initState 3 rfl

end Cpr

namespace Cpr

/-- A tick with no live referenced interval timer does nothing. -/
lemma tick_of_none (s : CprState) (h : s.metronomeInterval = none) : tick s = s := by
  simp [tick, h]

/-- A tick strictly below the cycle target only increments the counter. -/
lemma tick_step (s : CprState) (p : ℚ) (h : s.metronomeInterval = some p)
    (hlt : s.compressionCount + 1 < cycleTarget) :
    tick s = { s with compressionCount := s.compressionCount + 1 } := by
  have hn : ¬ (cycleTarget ≤ s.compressionCount + 1) := by omega
  simp [tick, h, updateCompressionCount, hn]

/-- The tick that reaches the cycle target also clears the interval and
shows the pulse-check modal. -/
lemma tick_stop (s : CprState) (p : ℚ) (h : s.metronomeInterval = some p)
    (hge : cycleTarget ≤ s.compressionCount + 1) :
    tick s = { s with compressionCount := s.compressionCount + 1,
                      metronomeInterval := none, pulseCheckModal := true } := by
  simp [tick, h, updateCompressionCount, stopMetronome, hge]

/-- Below the target, `i` ticks from a running state with counter 0 only
set the counter to `i`. -/
lemma tick_iterate_run (s : CprState) (p : ℚ) (h : s.metronomeInterval = some p)
    (h0 : s.compressionCount = 0) :
    ∀ i, i < cycleTarget → tick^[i] s = { s with compressionCount := i } := by
  intro i
  induction i with
  | zero =>
    intro _
    rw [Function.iterate_zero_apply, ← h0]
  | succ i ih =>
    intro hi
    rw [Function.iterate_succ_apply', ih (by omega),
      tick_step { s with compressionCount := i } p h (by show i + 1 < cycleTarget; omega)]

/-- C4: from a running state with counter 0, exactly 120 ticks clear the
metronome interval handle, show the pulse-check modal (the awaiting state),
and leave the counter at 120; further ticks never increment it again, since
the interval is gone. -/
theorem ticks_reach_pulse_check (s : CprState) (p : ℚ)
    (hrun : s.metronomeInterval = some p) (h0 : s.compressionCount = 0) :
    (tick^[cycleTarget] s).metronomeInterval = none ∧
    (tick^[cycleTarget] s).pulseCheckModal = true ∧
    (tick^[cycleTarget] s).compressionCount = cycleTarget ∧
    ∀ n, (tick^[n] (tick^[cycleTarget] s)).compressionCount = cycleTarget := by
  have h119 : tick^[119] s = { s with compressionCount := 119 } :=
    tick_iterate_run s p hrun h0 119 (by decide)
  have h120 : tick^[cycleTarget] s =
      { s with compressionCount := 120, metronomeInterval := none,
               pulseCheckModal := true } := by
    rw [show cycleTarget = 119 + 1 from rfl, Function.iterate_succ_apply', h119,
      tick_stop { s with compressionCount := 119 } p hrun
        (by show cycleTarget ≤ 119 + 1; decide)]
  have hfix : tick (tick^[cycleTarget] s) = tick^[cycleTarget] s := by
    rw [h120]; exact tick_of_none _ rfl
  refine ⟨by rw [h120], by rw [h120], by rw [h120]; rfl, fun n => ?_⟩
  rw [Function.iterate_fixed hfix n, h120]
  rfl

/-- C4 witness: the concrete running state right after `startCPR`, with
five further ticks standing in for the universally quantified tail. -/
theorem ticks_reach_pulse_check_witness :
    (tick^[cycleTarget] (startCPR initState 0)).metronomeInterval = none ∧
    (tick^[cycleTarget] (startCPR initState 0)).pulseCheckModal = true ∧
    (tick^[cycleTarget] (startCPR initState 0)).compressionCount = cycleTarget ∧
    (tick^[5] (tick^[cycleTarget] (startCPR initState 0))).compressionCount = cycleTarget := by
  have h := ticks_reach_pulse_check (startCPR initState 0)
    ((60000 : ℚ) / (100 : ℚ)) rfl rfl
  exact ⟨h.1, h.2.1, h.2.2.1, h.2.2.2 5⟩

/-- The awaiting-pulse-check state: modal shown, metronome interval
cleared, session start time still recorded. -/
def AwaitingPulseCheck (s : CprState) : Prop :=
  s.pulseCheckModal = true ∧ s.metronomeInterval = none ∧ s.cprStartTime.isSome

/-- C5: from an awaiting-pulse-check state, `noPulseDetected` unshifts
exactly one pulse-check timeline entry (in particular no session-start
entry), zeroes the compression counter, increments the cycle counter,
restarts the metronome interval, and leaves the session start time — the
elapsed-time basis — untouched. -/
theorem noPulse_continues_session (s : CprState) (now : Nat)
    (h : AwaitingPulseCheck s) :
    (noPulseDetected s now).cprTimeline =
      { time := now, iso := now, type := "pulse-check",
                     details := "No pulse detected - CPR continued" } :: s.cprTimeline ∧
    (noPulseDetected s now).compressionCount = 0 ∧
    (noPulseDetected s now).cycleCount = s.cycleCount + 1 ∧
    (noPulseDetected s now).metronomeInterval =
      some ((60000 : ℚ) / (s.metronomeRate : ℚ)) ∧
    (noPulseDetected s now).cprStartTime = s.cprStartTime := by
  obtain ⟨hm, hi, hs⟩ := h
  obtain ⟨t0, ht⟩ := Option.isSome_iff_exists.mp hs
  simp [noPulseDetected, closePulseCheckModal, startMetronome, startCPRTimer,
    saveToLocalStorage, stopMetronome, ht, hi]

set_option maxRecDepth 8000 in
/-- C5 witness: the concrete awaiting state reached by `startCPR` followed
by 120 ticks. -/
theorem noPulse_continues_session_witness :
    (noPulseDetected (tick^[cycleTarget] (startCPR initState 0)) 7).cprTimeline =
      { time := 7, iso := 7, type := "pulse-check",
                   details := "No pulse detected - CPR continued" }
        :: (tick^[cycleTarget] (startCPR initState 0)).cprTimeline ∧
    (noPulseDetected (tick^[cycleTarget] (startCPR initState 0)) 7).compressionCount = 0 ∧
    (noPulseDetected (tick^[cycleTarget] (startCPR initState 0)) 7).cycleCount =
      (tick^[cycleTarget] (startCPR initState 0)).cycleCount + 1 ∧
    (noPulseDetected (tick^[cycleTarget] (startCPR initState 0)) 7).metronomeInterval =
      some ((60000 : ℚ) / ((tick^[cycleTarget] (startCPR initState 0)).metronomeRate : ℚ)) ∧
    (noPulseDetected (tick^[cycleTarget] (startCPR initState 0)) 7).cprStartTime =
      (tick^[cycleTarget] (startCPR initState 0)).cprStartTime :=
  noPulse_continues_session (tick^[cycleTarget] (startCPR initState 0)) 7
    ⟨by decide, by decide, by decide⟩

/-- C7: for any counter value of at least 1, the displayed progress is the
counter modulo the target when that modulus is non-zero and the full target
when it is zero — in particular 120, not 0, at the 120th compression — and
the displayed cycle number is the ceiling of counter over target. -/
theorem cycle_display_boundary (c : Nat) (hc : 1 ≤ c) :
    (c % cycleTarget ≠ 0 → cycleProgress c = c % cycleTarget) ∧
    (c % cycleTarget = 0 → cycleProgress c = cycleTarget) ∧
    (currentCycle c : ℤ) = ⌈(c : ℚ) / (cycleTarget : ℚ)⌉ ∧
    cycleProgress cycleTarget = cycleTarget := by
  refine ⟨fun h => by simp [cycleProgress, h], fun h => by simp [cycleProgress, h],
    ?_, by decide⟩
  have hqr := Nat.div_add_mod (c + 119) 120
  have hrlt : (c + 119) % 120 < 120 := Nat.mod_lt _ (by norm_num)
  have hq : currentCycle c = (c + 119) / 120 := by
    simp [currentCycle, jsCeilDiv, cycleTarget]
  rw [hq, eq_comm, Int.ceil_eq_iff]
  have hpos : (0 : ℚ) < 120 := by norm_num
  have hct : ((cycleTarget : Nat) : ℚ) = 120 := by norm_num [cycleTarget]
  rw [hct]
  set q := (c + 119) / 120 with hqdef
  have h1 : c ≤ 120 * q := by omega
  have h2 : 120 * q < c + 120 := by omega
  have h1q : (c : ℚ) ≤ 120 * (q : ℚ) := by exact_mod_cast h1
  have h2q : 120 * (q : ℚ) < (c : ℚ) + 120 := by exact_mod_cast h2
  constructor
  · rw [lt_div_iff₀ hpos]
    push_cast
    linarith
  · rw [div_le_iff₀ hpos]
    push_cast
    linarith

/-- C7 witness at the boundary value 120. -/
theorem cycle_display_boundary_witness :
    (120 % cycleTarget ≠ 0 → cycleProgress 120 = 120 % cycleTarget) ∧
    (120 % cycleTarget = 0 → cycleProgress 120 = cycleTarget) ∧
    (currentCycle 120 : ℤ) = ⌈(120 : ℚ) / (cycleTarget : ℚ)⌉ ∧
    cycleProgress cycleTarget = cycleTarget :=
  cycle_display_boundary 120 (by decide)

end Cpr

namespace Cpr

/-- C8: for a positive rate, the rate-change operation while the metronome
runs hot-swaps the interval to period `60000 / bpm` ms (500 ms for 120 bpm)
and leaves the compression count, cycle count and session start time
untouched. -/
theorem setRate_hot_swap (s : CprState) (bpm now : Nat) (hb : 0 < bpm)
    (hrun : s.metronomeInterval.isSome) (hstart : s.cprStartTime.isSome) :
    (updateMetronomeRate s bpm now).metronomeRate = bpm ∧
    (updateMetronomeRate s bpm now).metronomeInterval = some ((60000 : ℚ) / (bpm : ℚ)) ∧
    (updateMetronomeRate s bpm now).compressionCount = s.compressionCount ∧
    (updateMetronomeRate s bpm now).cycleCount = s.cycleCount ∧
    (updateMetronomeRate s bpm now).cprStartTime = s.cprStartTime ∧
    (bpm = 120 → (updateMetronomeRate s bpm now).metronomeInterval = some (500 : ℚ)) := by
  obtain ⟨t0, ht⟩ := Option.isSome_iff_exists.mp hstart
  have h1 : ({ s with metronomeRate := bpm } : CprState).metronomeInterval.isSome := hrun
  refine ⟨?_, ?_, ?_, ?_, ?_, ?_⟩ <;>
    simp [updateMetronomeRate, h1, startMetronome, stopMetronome, startCPRTimer,
      saveToLocalStorage, ht]
  intro hbpm
  subst hbpm
  norm_num

/-- C8 witness: rate change to 120 bpm on the running state reached by
`startCPR` from the initial state. -/
theorem setRate_hot_swap_witness :
    (updateMetronomeRate (startCPR initState 0) 120 3).metronomeRate = 120 ∧
    (updateMetronomeRate (startCPR initState 0) 120 3).metronomeInterval =
      some ((60000 : ℚ) / ((120 : Nat) : ℚ)) ∧
    (updateMetronomeRate (startCPR initState 0) 120 3).compressionCount =
      (startCPR initState 0).compressionCount ∧
    (updateMetronomeRate (startCPR initState 0) 120 3).cycleCount =
      (startCPR initState 0).cycleCount ∧
    (updateMetronomeRate (startCPR initState 0) 120 3).cprStartTime =
      (startCPR initState 0).cprStartTime ∧
    (120 = 120 → (updateMetronomeRate (startCPR initState 0) 120 3).metronomeInterval =
      some (500 : ℚ)) :=
  setRate_hot_swap (startCPR initState 0) 120 3 (by decide) rfl rfl

/-- The states reachable from the initial module state by any sequence of
the exported operations of src/cpr.js and metronome interval callbacks. -/
inductive Reachable : CprState → Prop where
  | init : Reachable initState
  | startCPR {s : CprState} (h : Reachable s) (now : Nat) : Reachable (startCPR s now)
  | stopCPR {s : CprState} (h : Reachable s) : Reachable (stopCPR s)
  | toggleMetronome {s : CprState} (h : Reachable s) (now : Nat) :
      Reachable (toggleMetronome s now)
  | tick {s : CprState} (h : Reachable s) : Reachable (tick s)
  | updateMetronomeRate {s : CprState} (h : Reachable s) (bpm now : Nat) :
      Reachable (updateMetronomeRate s bpm now)
  | resetMetronome {s : CprState} (h : Reachable s) : Reachable (resetMetronome s)
  | closePulseCheckModal {s : CprState} (h : Reachable s) :
      Reachable (closePulseCheckModal s)
  | pulseDetected {s : CprState} (h : Reachable s) (now : Nat) :
      Reachable (pulseDetected s now)
  | noPulseDetected {s : CprState} (h : Reachable s) (now : Nat) :
      Reachable (noPulseDetected s now)
  | logRhythmChange {s : CprState} (h : Reachable s) (now : Nat) (rhythm : String) :
      Reachable (logRhythmChange s now rhythm)
  | logShock {s : CprState} (h : Reachable s) (now : Nat) (energy : Option Int) :
      Reachable (logShock s now energy)
  | logMedication {s : CprState} (h : Reachable s) (now : Nat)
      (medication otherMed dose interval : String) :
      Reachable (logMedication s now medication otherMed dose interval)
  | logIntervention {s : CprState} (h : Reachable s) (now : Nat)
      (intervention otherInt notes : String) :
      Reachable (logIntervention s now intervention otherInt notes)
  | addCprEvent {s : CprState} (h : Reachable s) (now : Nat) (details : String) :
      Reachable (addCprEvent s now details)

/-- Number of live elapsed-time interval timers: orphaned ones plus the one
referenced by the `cprTimerInterval` variable, if any. -/
def cprTimerLive (s : CprState) : Nat :=
  s.cprTimerOrphans + (if s.cprTimerInterval then 1 else 0)

/-- Number of live metronome interval timers: orphaned ones plus the one
referenced by the `metronomeInterval` variable, if any. -/
def metronomeLive (s : CprState) : Nat :=
  s.metronomeOrphans + (if s.metronomeInterval.isSome then 1 else 0)

/-- The elapsed-timer discipline that actually holds: no orphaned elapsed
timers, and no live elapsed timer outside a session. -/
def TimerInv (s : CprState) : Prop :=
  s.cprTimerOrphans = 0 ∧ (s.cprStartTime = none → s.cprTimerInterval = false)

lemma timerInv_saveToLocalStorage {s : CprState} (h : TimerInv s) :
    TimerInv (saveToLocalStorage s) := ⟨h.1, h.2⟩

lemma timerInv_of_fields (s t : CprState) (h : TimerInv s)
    (h1 : t.cprTimerOrphans = s.cprTimerOrphans)
    (h2 : t.cprStartTime = s.cprStartTime)
    (h3 : t.cprTimerInterval = s.cprTimerInterval) : TimerInv t := by
  obtain ⟨a, b⟩ := h
  refine ⟨by rw [h1]; exact a, fun hn => ?_⟩
  rw [h3]
  exact b (by rw [← h2]; exact hn)

lemma timerInv_startMetronome {s : CprState} (h : TimerInv s) (now : Nat) :
    TimerInv (startMetronome s now) := by
  obtain ⟨h1, h2⟩ := h
  cases hs : s.cprStartTime with
  | none =>
    have h3 := h2 hs
    simp [startMetronome, startCPRTimer, saveToLocalStorage, TimerInv, hs, h3, h1]
  | some t => simp [startMetronome, TimerInv, hs, h1]

set_option maxRecDepth 4000 in
/-- Every reachable state satisfies the elapsed-timer discipline. -/
lemma reachable_timerInv {s : CprState} (h : Reachable s) : TimerInv s := by
  induction h with
  | init => exact ⟨rfl, fun _ => rfl⟩
  | startCPR h now ih => exact timerInv_startMetronome ih now
  | stopCPR h ih => exact ih
  | toggleMetronome h now ih =>
    unfold toggleMetronome
    split
    · exact ih
    · exact timerInv_startMetronome ih now
  | tick h ih =>
    rename_i s'
    cases hmi : s'.metronomeInterval with
    | none => rw [tick_of_none s' hmi]; exact ih
    | some p =>
      by_cases hc : s'.compressionCount + 1 < cycleTarget
      · rw [tick_step s' p hmi hc]; exact ⟨ih.1, ih.2⟩
      · rw [tick_stop s' p hmi (by omega)]; exact ⟨ih.1, ih.2⟩
  | updateMetronomeRate h bpm now ih =>
    simp only [updateMetronomeRate]
    split
    · apply timerInv_startMetronome
      exact ⟨ih.1, ih.2⟩
    · exact ⟨ih.1, ih.2⟩
  | resetMetronome h ih => exact ⟨ih.1, fun _ => rfl⟩
  | closePulseCheckModal h ih => exact ⟨ih.1, ih.2⟩
  | pulseDetected h now ih =>
    rename_i s'
    cases hs : s'.cprStartTime <;>
      simp [pulseDetected, closePulseCheckModal, resetMetronome, stopMetronome,
        saveToLocalStorage, TimerInv, hs, ih.1]
  | noPulseDetected h now ih =>
    simp only [noPulseDetected]
    apply timerInv_saveToLocalStorage
    apply timerInv_startMetronome
    exact ⟨ih.1, ih.2⟩
  | logRhythmChange h now rhythm ih =>
    rename_i s'
    refine timerInv_of_fields s' _ ih ?_ ?_ ?_ <;>
      simp [logRhythmChange, saveToLocalStorage, apply_ite]
  | logShock h now energy ih =>
    rename_i s'
    refine timerInv_of_fields s' _ ih ?_ ?_ ?_ <;>
      cases energy <;> simp [logShock, saveToLocalStorage, apply_ite]
  | logMedication h now medication otherMed dose interval ih =>
    rename_i s'
    refine timerInv_of_fields s' _ ih ?_ ?_ ?_ <;>
      by_cases h1 : medication = "" <;>
        by_cases h2 : medication = "other" ∧ otherMed = "" <;>
          simp [logMedication, saveToLocalStorage, h1, h2]
  | logIntervention h now intervention otherInt notes ih =>
    rename_i s'
    refine timerInv_of_fields s' _ ih ?_ ?_ ?_ <;>
      by_cases h1 : intervention = "" <;>
        by_cases h2 : intervention = "other-int" ∧ otherInt = "" <;>
          simp [logIntervention, saveToLocalStorage, h1, h2]
  | addCprEvent h now details ih =>
    rename_i s'
    refine timerInv_of_fields s' _ ih ?_ ?_ ?_ <;>
      simp [addCprEvent, saveToLocalStorage, apply_ite]

/-- C9 counterexample: calling `startCPR` twice in a row is reachable and
leaves two live metronome interval timers — the second start overwrites the
handle without clearing it, so it is not a defensive no-op. -/
theorem double_start_two_intervals_cex :
    Reachable (startCPR (startCPR initState 0) 1) ∧
    metronomeLive (startCPR (startCPR initState 0) 1) = 2 :=
  ⟨Reachable.startCPR (Reachable.startCPR Reachable.init 0) 1, rfl⟩

/-- C9 amended: in every reachable state at most one elapsed-time timer is
live, but invoking `startCPR` while the metronome interval is live always
adds a second live metronome interval (orphaning the previous handle)
rather than being a no-op. -/
theorem timer_discipline (s : CprState) (h : Reachable s) :
    cprTimerLive s ≤ 1 ∧
    (∀ now, s.metronomeInterval.isSome →
      metronomeLive (startCPR s now) = metronomeLive s + 1) := by
  have hi := reachable_timerInv h
  constructor
  · unfold cprTimerLive
    rw [hi.1]
    split <;> omega
  · intro now hm
    cases hs : s.cprStartTime <;>
      simp [startCPR, startMetronome, startCPRTimer, saveToLocalStorage,
        metronomeLive, hs, hm]

/-- C9 witness: the reachable running state after one `startCPR`. -/
theorem timer_discipline_witness :
    cprTimerLive (startCPR initState 0) ≤ 1 ∧
    metronomeLive (startCPR (startCPR initState 0) 5) =
      metronomeLive (startCPR initState 0) + 1 := by
  have h := timer_discipline (startCPR initState 0) (Reachable.startCPR Reachable.init 0)
  exact ⟨h.1, h.2 5 rfl⟩

end Cpr
